import Mathlib

/-!
# Favalon.Core/Internal/Interop.c

A shallow embedding of the single native bridge function of Favalon,

    int32_t Favalon_Internal_NativeMethods_stat(const char* pPath, int32_t* pMode)
    {
        struct stat rs;
        int32_t result = stat(pPath, &rs);
        *pMode = (int32_t)rs.st_mode;
        return result;
    }

together with a model of the POSIX status primitive it calls and the
properties of the bridge that follow from the code.

Machine integers are mathematical integers with an explicit wrap to the
signed 32-bit range.  C strings are Lean strings.  The memory of the caller
is a map from addresses to signed 32-bit values; the filesystem is an
abstract state that answers path resolutions; the thread-local error
indicator `errno` holds the failure kind that a failing OS call left last.
-/

namespace Favalon

/-! ## Machine integers -/

/-- The conversion `(int32_t)x` of two's-complement C: the unique integer in
`[-2^31, 2^31)` that is congruent to `x` modulo `2^32`. -/
def toInt32 (x : Int) : Int :=
  (x + 2 ^ 31) % 2 ^ 32 - 2 ^ 31

/-- Reinterpretation of a signed 32-bit value as an unsigned one
(`(uint32_t)v`): the representative modulo `2^32` in `[0, 2^32)`. -/
def toUInt32 (v : Int) : Nat :=
  (v % 2 ^ 32).toNat

/-! ## The status record and the operating system -/

/-- The part of `struct stat` that the bridge reads: the field `st_mode`
(type `mode_t`, an unsigned integer holding the file-type bits and the
permission bits). -/
structure StructStat where
  st_mode : Nat
  deriving DecidableEq

/-- Failure kinds of a path lookup, as reported through `errno`. -/
inductive Errno where
  | ENOENT
  | EACCES
  | ENAMETOOLONG
  | EIO
  | ELOOP
  | ENOTDIR
  | EOVERFLOW
  deriving DecidableEq

/-- A filesystem state.  All that the status primitive observes of it is
how a non-empty path resolves: to the status record of the entry it names,
or to a failure kind. -/
structure FileSystem where
  resolve : String → Except Errno StructStat

/-- Modelled from the spec: the lookup the operating system performs for
`stat(path, _)`, which is not part of the repository.  The empty path names
no entry (`ENOENT`); every other path is resolved by the filesystem. -/
def lookup (path : String) (fs : FileSystem) : Except Errno StructStat :=
  if path = "" then Except.error Errno.ENOENT else fs.resolve path

/-- Modelled from the spec: the operating-system status primitive
`stat(path, buf)` of `<sys/stat.h>`, which the bridge calls and which is not
part of the repository.  On success it returns `0` and fills the record
`buf` with the status of the entry; on failure, whatever the failure kind,
it returns `-1` and leaves the record as it was.  The filesystem is not
changed (a metadata-only query).  The result is the returned `int` together
with the content of the record after the call. -/
def stat (path : String) (fs : FileSystem) (buf : StructStat) : Int × StructStat :=
  match lookup path fs with
  | Except.ok st => (0, st)
  | Except.error _ => (-1, buf)

/-- Modelled from the spec: what the call `stat(path, buf)` of
`<sys/stat.h>`, which is not part of the repository, leaves behind outside
the record `buf`.  Given the filesystem and the content of the thread-local
error indicator `errno` before the call, the result is the filesystem and
the content of `errno` after it.  The filesystem is returned as it was (a
metadata-only query opens and changes no file).  On success `errno` keeps
its content; on failure it is set to the failure kind, the separate
thread-local error code that says why the lookup failed. -/
def stat_effect (path : String) (fs : FileSystem) (errno : Option Errno) :
    FileSystem × Option Errno :=
  match lookup path fs with
  | Except.ok _ => (fs, errno)
  | Except.error e => (fs, some e)

/-! ## The caller's world -/

/-- Everything outside the bridge that a call can observe or change: the
filesystem, the caller's memory of `int32_t` slots, by address, and the
thread-local error indicator `errno` (`none` when it holds no failure
kind). -/
structure World where
  fs : FileSystem
  mem : Nat → Int
  errno : Option Errno

/-- The store `*p = v` into the slot at address `p`. -/
def store (mem : Nat → Int) (p : Nat) (v : Int) : Nat → Int :=
  fun a => if a = p then v else mem a

/-! ## The bridge -/

/-- The function `Favalon_Internal_NativeMethods_stat(pPath, pMode)`.

`rs` is the content that the uninitialised local `struct stat rs` happens to
have when the function is entered.  The result is the returned `int32_t`
and the world after the call: the filesystem and `errno` as the call of
`stat` leaves them, and the memory after the store into `*pMode`.

    int32_t result = stat(pPath, &rs);
    *pMode = (int32_t)rs.st_mode;
    return result;
-/
def Favalon_Internal_NativeMethods_stat
    (pPath : String) (pMode : Nat) (rs : StructStat) (w : World) : Int × World :=
  let r := stat pPath w.fs rs
  let result := toInt32 r.1
  let os := stat_effect pPath w.fs w.errno
  let rs1 := r.2
  (result,
    { fs := os.1, mem := store w.mem pMode (toInt32 (rs1.st_mode : Int)), errno := os.2 })

/-! ## A sample filesystem -/

/-- A small filesystem: a directory with permissions 0755, a regular file
with permissions 0644, an entry whose parent directory cannot be searched,
and nothing else. -/
def sampleFs : FileSystem where
  resolve := fun p =>
    if p = "/tmp" then Except.ok ⟨0o040755⟩
    else if p = "/etc/passwd" then Except.ok ⟨0o100644⟩
    else if p = "/root/secret" then Except.error Errno.EACCES
    else Except.error Errno.ENOENT

/-- A world over the sample filesystem in which every slot holds 7 and
`errno` holds no failure kind. -/
def sampleWorld : World where
  fs := sampleFs
  mem := fun _ => 7
  errno := none

/-! ## Arithmetic of the conversions -/

theorem toInt32_zero : toInt32 0 = 0 := by
  unfold toInt32; norm_num

theorem toInt32_neg_one : toInt32 (-1) = -1 := by
  unfold toInt32; norm_num

theorem toInt32_of_lt (m : Nat) (h : m < 2 ^ 31) : toInt32 (m : Int) = (m : Int) := by
  unfold toInt32; omega

theorem toInt32_of_ge (m : Nat) (h1 : 2 ^ 31 ≤ m) (h2 : m < 2 ^ 32) :
    toInt32 (m : Int) = Int.negSucc (2 ^ 32 - (m + 1)) := by
  unfold toInt32; rw [Int.negSucc_eq]; omega

theorem toInt32_range (x : Int) : -(2 ^ 31) ≤ toInt32 x ∧ toInt32 x < 2 ^ 31 := by
  unfold toInt32; omega

theorem toUInt32_toInt32 (m : Nat) (h : m < 2 ^ 32) : toUInt32 (toInt32 (m : Int)) = m := by
  unfold toUInt32 toInt32; omega

theorem ldiff_complement (m k : Nat) (hm : m < 2 ^ 32) (hk : k < 2 ^ 32) :
    Nat.ldiff k (2 ^ 32 - (m + 1)) = m &&& k := by
  apply Nat.eq_of_testBit_eq
  intro i
  rw [Nat.testBit_ldiff, Nat.testBit_two_pow_sub_succ hm, Nat.testBit_and]
  by_cases hi : i < 32
  · simp [hi, Bool.and_comm]
  · have hki : k.testBit i = false :=
      Nat.testBit_lt_two_pow (lt_of_lt_of_le hk (Nat.pow_le_pow_right (by norm_num) (by omega)))
    simp [hki]

theorem land_toInt32 (m k : Nat) (hm : m < 2 ^ 32) (hk : k < 2 ^ 32) :
    Int.land (toInt32 (m : Int)) (k : Int) = ((m &&& k : Nat) : Int) := by
  by_cases h : m < 2 ^ 31
  · rw [toInt32_of_lt m h]; rfl
  · rw [toInt32_of_ge m (by omega) hm]
    show ((Nat.ldiff k (2 ^ 32 - (m + 1)) : Nat) : Int) = _
    rw [ldiff_complement m k hm hk]

/-! ## The status primitive -/

theorem stat_of_ok (path : String) (fs : FileSystem) (buf st : StructStat)
    (h : lookup path fs = Except.ok st) : stat path fs buf = (0, st) := by
  unfold stat; rw [h]

theorem stat_of_error (path : String) (fs : FileSystem) (buf : StructStat) (e : Errno)
    (h : lookup path fs = Except.error e) : stat path fs buf = (-1, buf) := by
  unfold stat; rw [h]

theorem stat_zero_iff (path : String) (fs : FileSystem) (buf : StructStat) :
    (stat path fs buf).1 = 0 ↔ ∃ st, lookup path fs = Except.ok st := by
  unfold stat
  cases lookup path fs with
  | ok st => simp
  | error e => simp

theorem toInt32_stat (path : String) (fs : FileSystem) (buf : StructStat) :
    toInt32 (stat path fs buf).1 = (stat path fs buf).1 := by
  unfold stat
  cases lookup path fs with
  | ok st => exact toInt32_zero
  | error e => exact toInt32_neg_one

theorem stat_effect_fs (path : String) (fs : FileSystem) (errno : Option Errno) :
    (stat_effect path fs errno).1 = fs := by
  unfold stat_effect
  cases lookup path fs with
  | ok st => rfl
  | error e => rfl

theorem stat_effect_of_ok (path : String) (fs : FileSystem) (errno : Option Errno)
    (st : StructStat) (h : lookup path fs = Except.ok st) :
    (stat_effect path fs errno).2 = errno := by
  unfold stat_effect; rw [h]

theorem stat_effect_of_error (path : String) (fs : FileSystem) (errno : Option Errno)
    (e : Errno) (h : lookup path fs = Except.error e) :
    (stat_effect path fs errno).2 = some e := by
  unfold stat_effect; rw [h]

/-! ## Properties of the bridge -/

/-- C1: whenever the status primitive succeeds on the path and fills the
status record with a record whose mode field is `m = st.st_mode`, the bridge
returns result code 0 and the mode output slot holds `m` converted to a
32-bit signed integer after the call. -/
theorem stat_success_result_and_mode (pPath : String) (pMode : Nat) (rs : StructStat)
    (w : World) (st : StructStat) (h : lookup pPath w.fs = Except.ok st) :
    (Favalon_Internal_NativeMethods_stat pPath pMode rs w).1 = 0 ∧
    (Favalon_Internal_NativeMethods_stat pPath pMode rs w).2.mem pMode = toInt32 (st.st_mode : Int) := by
  simp [Favalon_Internal_NativeMethods_stat, stat_of_ok pPath w.fs rs st h, store, toInt32_zero]

theorem stat_success_result_and_mode_witness :
    lookup "/tmp" sampleWorld.fs = Except.ok ⟨0o040755⟩ ∧
    (Favalon_Internal_NativeMethods_stat "/tmp" 3 ⟨99⟩ sampleWorld).1 = 0 ∧
    (Favalon_Internal_NativeMethods_stat "/tmp" 3 ⟨99⟩ sampleWorld).2.mem 3
      = toInt32 ((⟨0o040755⟩ : StructStat).st_mode : Int) :=
  ⟨rfl, stat_success_result_and_mode "/tmp" 3 ⟨99⟩ sampleWorld ⟨0o040755⟩ rfl⟩

/-- C2: the result code of the bridge is exactly the value returned by the
status primitive; it is zero if and only if the lookup succeeded; and for a
path that names no existing entry (the lookup fails with `ENOENT`) it is
non-zero. -/
theorem stat_result_is_os_result (pPath : String) (pMode : Nat) (rs : StructStat)
    (w : World) :
    (Favalon_Internal_NativeMethods_stat pPath pMode rs w).1 = (stat pPath w.fs rs).1 ∧
    ((Favalon_Internal_NativeMethods_stat pPath pMode rs w).1 = 0 ↔ ∃ st, lookup pPath w.fs = Except.ok st) ∧
    (lookup pPath w.fs = Except.error Errno.ENOENT → (Favalon_Internal_NativeMethods_stat pPath pMode rs w).1 ≠ 0) := by
  have h1 : (Favalon_Internal_NativeMethods_stat pPath pMode rs w).1 = (stat pPath w.fs rs).1 := by
    simp [Favalon_Internal_NativeMethods_stat, toInt32_stat]
  refine ⟨h1, ?_, ?_⟩
  · rw [h1]; exact stat_zero_iff pPath w.fs rs
  · intro h
    rw [h1, stat_of_error pPath w.fs rs _ h]
    show (-1 : Int) ≠ 0
    decide

theorem stat_result_is_os_result_witness :
    lookup "/nonexistent" sampleWorld.fs = Except.error Errno.ENOENT ∧
    (Favalon_Internal_NativeMethods_stat "/nonexistent" 3 ⟨99⟩ sampleWorld).1 ≠ 0 :=
  ⟨rfl, (stat_result_is_os_result "/nonexistent" 3 ⟨99⟩ sampleWorld).2.2 rfl⟩

/-- C3, counterexample: the path "/nonexistent" names no entry of the sample
filesystem, so the lookup fails and the result code is -1; the slot at
address 3 holds 7 before the call and the local status record holds mode 99.
After the call the slot holds 99: it was written although the lookup
failed. -/
theorem stat_failure_overwrites_slot :
    lookup "/nonexistent" sampleWorld.fs = Except.error Errno.ENOENT ∧
    (Favalon_Internal_NativeMethods_stat "/nonexistent" 3 ⟨99⟩ sampleWorld).1 = -1 ∧
    sampleWorld.mem 3 = 7 ∧
    (Favalon_Internal_NativeMethods_stat "/nonexistent" 3 ⟨99⟩ sampleWorld).2.mem 3 = 99 ∧
    (Favalon_Internal_NativeMethods_stat "/nonexistent" 3 ⟨99⟩ sampleWorld).2.mem 3 ≠ sampleWorld.mem 3 := by
  refine ⟨rfl, ?_, rfl, ?_, ?_⟩ <;> decide

/-- C3, amended: when the lookup fails, the bridge still writes the mode
output slot: after the call the slot holds the 32-bit signed conversion of
the mode field that the local status record had on entry.  The slot
therefore keeps the value it held before the call exactly when that value
is this conversion. -/
theorem stat_failure_mode (pPath : String) (pMode : Nat) (rs : StructStat) (w : World)
    (e : Errno) (h : lookup pPath w.fs = Except.error e) :
    (Favalon_Internal_NativeMethods_stat pPath pMode rs w).2.mem pMode = toInt32 (rs.st_mode : Int) ∧
    ((Favalon_Internal_NativeMethods_stat pPath pMode rs w).2.mem pMode = w.mem pMode ↔
      w.mem pMode = toInt32 (rs.st_mode : Int)) := by
  have h1 : (Favalon_Internal_NativeMethods_stat pPath pMode rs w).2.mem pMode = toInt32 (rs.st_mode : Int) := by
    simp [Favalon_Internal_NativeMethods_stat, stat_of_error pPath w.fs rs e h, store]
  refine ⟨h1, ?_⟩
  rw [h1]
  exact eq_comm

theorem stat_failure_mode_witness :
    lookup "/root/secret" sampleWorld.fs = Except.error Errno.EACCES ∧
    (Favalon_Internal_NativeMethods_stat "/root/secret" 3 ⟨99⟩ sampleWorld).2.mem 3
      = toInt32 ((⟨99⟩ : StructStat).st_mode : Int) ∧
    ((Favalon_Internal_NativeMethods_stat "/root/secret" 3 ⟨99⟩ sampleWorld).2.mem 3 = sampleWorld.mem 3 ↔
      sampleWorld.mem 3 = toInt32 ((⟨99⟩ : StructStat).st_mode : Int)) :=
  ⟨rfl, stat_failure_mode "/root/secret" 3 ⟨99⟩ sampleWorld Errno.EACCES rfl⟩

/-- C4, counterexample: two successive calls with the same failing path
"/nonexistent", the second running in the world left by the first (whose
filesystem is that of the first), return different mode values, 1 and 2,
because the local status record held mode 1 on entry to the first call and
mode 2 on entry to the second. -/
theorem stat_failure_modes_differ :
    lookup "/nonexistent" sampleWorld.fs = Except.error Errno.ENOENT ∧
    (Favalon_Internal_NativeMethods_stat "/nonexistent" 3 ⟨1⟩ sampleWorld).2.fs = sampleWorld.fs ∧
    (Favalon_Internal_NativeMethods_stat "/nonexistent" 3 ⟨1⟩ sampleWorld).2.mem 3 = 1 ∧
    (Favalon_Internal_NativeMethods_stat "/nonexistent" 3 ⟨2⟩
      (Favalon_Internal_NativeMethods_stat "/nonexistent" 3 ⟨1⟩ sampleWorld).2).2.mem 3 = 2 ∧
    (Favalon_Internal_NativeMethods_stat "/nonexistent" 3 ⟨1⟩ sampleWorld).2.mem 3 ≠
      (Favalon_Internal_NativeMethods_stat "/nonexistent" 3 ⟨2⟩
        (Favalon_Internal_NativeMethods_stat "/nonexistent" 3 ⟨1⟩ sampleWorld).2).2.mem 3 := by
  refine ⟨rfl, rfl, ?_, ?_, ?_⟩ <;> decide

/-- C4, amended: two calls with the same path in the same filesystem state
return identical result codes, whether the lookup succeeds or fails and
whatever the prior contents of the local status record, of the caller's
memory, of `errno` and of the output slot are; and they return identical mode values
whenever the lookup succeeds or the local status record has the same mode
field on entry to both calls. -/
theorem stat_deterministic (pPath : String) (fs : FileSystem) (pMode1 pMode2 : Nat)
    (rs1 rs2 : StructStat) (mem1 mem2 : Nat → Int) (errno1 errno2 : Option Errno) :
    (Favalon_Internal_NativeMethods_stat pPath pMode1 rs1 ⟨fs, mem1, errno1⟩).1 = (Favalon_Internal_NativeMethods_stat pPath pMode2 rs2 ⟨fs, mem2, errno2⟩).1 ∧
    (((∃ st, lookup pPath fs = Except.ok st) ∨ rs1.st_mode = rs2.st_mode) →
      (Favalon_Internal_NativeMethods_stat pPath pMode1 rs1 ⟨fs, mem1, errno1⟩).2.mem pMode1 =
        (Favalon_Internal_NativeMethods_stat pPath pMode2 rs2 ⟨fs, mem2, errno2⟩).2.mem pMode2) := by
  cases hl : lookup pPath fs with
  | ok st =>
    simp [Favalon_Internal_NativeMethods_stat, stat_of_ok pPath fs _ st hl, store]
  | error e =>
    simp [Favalon_Internal_NativeMethods_stat, stat_of_error pPath fs _ e hl, store]
    intro h
    rw [h]

theorem stat_deterministic_witness :
    ((∃ st, lookup "/tmp" sampleFs = Except.ok st) ∨
      (⟨1⟩ : StructStat).st_mode = (⟨2⟩ : StructStat).st_mode) ∧
    (Favalon_Internal_NativeMethods_stat "/tmp" 3 ⟨1⟩ ⟨sampleFs, fun _ => 7, none⟩).2.mem 3 =
      (Favalon_Internal_NativeMethods_stat "/tmp" 5 ⟨2⟩ ⟨sampleFs, fun _ => 8, some Errno.EIO⟩).2.mem 5 :=
  ⟨Or.inl ⟨⟨0o040755⟩, rfl⟩,
   (stat_deterministic "/tmp" sampleFs 3 5 ⟨1⟩ ⟨2⟩ (fun _ => 7) (fun _ => 8)
     none (some Errno.EIO)).2
     (Or.inl ⟨⟨0o040755⟩, rfl⟩)⟩

/-- C5: for a successful lookup whose reported mode field `m` is below
`2^32`, the returned mode has the permission sub-field and the file-type
sub-field of `m` (bitwise AND with 0o7777 and with 0o170000); for a
directory with permissions 0755 (`m = 0o040755`) these are 0o755 and the
directory type 0o040000, and for a regular file the type sub-field is
0o100000. -/
theorem stat_mode_subfields (pPath : String) (pMode : Nat) (rs : StructStat) (w : World)
    (st : StructStat) (h : lookup pPath w.fs = Except.ok st) (hm : st.st_mode < 2 ^ 32) :
    Int.land ((Favalon_Internal_NativeMethods_stat pPath pMode rs w).2.mem pMode) 0o7777
      = ((st.st_mode &&& 0o7777 : Nat) : Int) ∧
    Int.land ((Favalon_Internal_NativeMethods_stat pPath pMode rs w).2.mem pMode) 0o170000
      = ((st.st_mode &&& 0o170000 : Nat) : Int) ∧
    (st.st_mode = 0o040755 →
      Int.land ((Favalon_Internal_NativeMethods_stat pPath pMode rs w).2.mem pMode) 0o7777 = 0o755 ∧
      Int.land ((Favalon_Internal_NativeMethods_stat pPath pMode rs w).2.mem pMode) 0o170000 = 0o040000) ∧
    (st.st_mode &&& 0o170000 = 0o100000 →
      Int.land ((Favalon_Internal_NativeMethods_stat pPath pMode rs w).2.mem pMode) 0o170000 = 0o100000) := by
  have hv : (Favalon_Internal_NativeMethods_stat pPath pMode rs w).2.mem pMode = toInt32 (st.st_mode : Int) := by
    simp [Favalon_Internal_NativeMethods_stat, stat_of_ok pPath w.fs rs st h, store]
  have hp : Int.land (toInt32 (st.st_mode : Int)) 0o7777
      = ((st.st_mode &&& 0o7777 : Nat) : Int) :=
    land_toInt32 st.st_mode 0o7777 hm (by norm_num)
  have ht : Int.land (toInt32 (st.st_mode : Int)) 0o170000
      = ((st.st_mode &&& 0o170000 : Nat) : Int) :=
    land_toInt32 st.st_mode 0o170000 hm (by norm_num)
  rw [hv]
  refine ⟨hp, ht, ?_, ?_⟩
  · intro hd
    rw [hp, ht, hd]
    exact ⟨by decide, by decide⟩
  · intro hr
    rw [ht, hr]
    rfl

theorem stat_mode_subfields_witness :
    lookup "/tmp" sampleWorld.fs = Except.ok ⟨0o040755⟩ ∧
    (⟨0o040755⟩ : StructStat).st_mode < 2 ^ 32 ∧
    Int.land ((Favalon_Internal_NativeMethods_stat "/tmp" 3 ⟨99⟩ sampleWorld).2.mem 3) 0o7777 = 0o755 ∧
    Int.land ((Favalon_Internal_NativeMethods_stat "/tmp" 3 ⟨99⟩ sampleWorld).2.mem 3) 0o170000 = 0o040000 :=
  ⟨rfl, by decide,
   (stat_mode_subfields "/tmp" 3 ⟨99⟩ sampleWorld ⟨0o040755⟩ rfl (by decide)).2.2.1 rfl⟩

/-- C6, counterexample: the path "/nonexistent" names no entry of the sample
filesystem and the path "/root/secret" cannot be reached.  Before either
call `errno` holds no failure kind.  After the call on the first path it
holds `ENOENT`, after the call on the second it holds `EACCES`: besides the
result code and the mode output slot the call has produced a third
caller-visible value, and one that tells the two failures apart. -/
theorem stat_failure_sets_errno :
    lookup "/nonexistent" sampleWorld.fs = Except.error Errno.ENOENT ∧
    lookup "/root/secret" sampleWorld.fs = Except.error Errno.EACCES ∧
    sampleWorld.errno = none ∧
    (Favalon_Internal_NativeMethods_stat "/nonexistent" 3 ⟨99⟩ sampleWorld).2.errno = some Errno.ENOENT ∧
    (Favalon_Internal_NativeMethods_stat "/root/secret" 3 ⟨99⟩ sampleWorld).2.errno = some Errno.EACCES ∧
    (Favalon_Internal_NativeMethods_stat "/nonexistent" 3 ⟨99⟩ sampleWorld).2.errno ≠ sampleWorld.errno := by
  refine ⟨rfl, rfl, rfl, rfl, rfl, ?_⟩
  decide

/-- C6, amended: the bridge is a non-mutating query of the filesystem.
Whether the lookup succeeds or fails, the filesystem state after the call is
the filesystem state before it, and every slot of the caller's memory other
than the mode output slot holds after the call the value it held before.
When the lookup succeeds `errno` is as it was, so that the result code and
the mode output slot are all the call produces; when the lookup fails the
call leaves, besides these two, the failure kind in `errno`. -/
theorem stat_frame_and_errno (pPath : String) (pMode : Nat) (rs : StructStat) (w : World) :
    (Favalon_Internal_NativeMethods_stat pPath pMode rs w).2.fs = w.fs ∧
    (∀ a : Nat, a ≠ pMode → (Favalon_Internal_NativeMethods_stat pPath pMode rs w).2.mem a = w.mem a) ∧
    (∀ st, lookup pPath w.fs = Except.ok st → (Favalon_Internal_NativeMethods_stat pPath pMode rs w).2.errno = w.errno) ∧
    (∀ e, lookup pPath w.fs = Except.error e → (Favalon_Internal_NativeMethods_stat pPath pMode rs w).2.errno = some e) := by
  refine ⟨?_, ?_, ?_, ?_⟩
  · exact stat_effect_fs pPath w.fs w.errno
  · intro a ha
    simp [Favalon_Internal_NativeMethods_stat, store, ha]
  · intro st h
    exact stat_effect_of_ok pPath w.fs w.errno st h
  · intro e h
    exact stat_effect_of_error pPath w.fs w.errno e h

theorem stat_frame_and_errno_witness :
    (4 : Nat) ≠ 3 ∧
    lookup "/root/secret" sampleWorld.fs = Except.error Errno.EACCES ∧
    (Favalon_Internal_NativeMethods_stat "/root/secret" 3 ⟨99⟩ sampleWorld).2.mem 4 = sampleWorld.mem 4 ∧
    (Favalon_Internal_NativeMethods_stat "/root/secret" 3 ⟨99⟩ sampleWorld).2.errno = some Errno.EACCES :=
  ⟨by decide, rfl,
   (stat_frame_and_errno "/root/secret" 3 ⟨99⟩ sampleWorld).2.1 4 (by decide),
   (stat_frame_and_errno "/root/secret" 3 ⟨99⟩ sampleWorld).2.2.2 Errno.EACCES rfl⟩

/-- C7: failure is reported as one generic code.  Any two failing lookups,
whatever their failure kinds `e1` and `e2`, give the same result code, which
is the failure value -1 of the status primitive and is non-zero. -/
theorem stat_failure_generic (p1 p2 : String) (pMode1 pMode2 : Nat) (rs1 rs2 : StructStat)
    (w1 w2 : World) (e1 e2 : Errno)
    (h1 : lookup p1 w1.fs = Except.error e1) (h2 : lookup p2 w2.fs = Except.error e2) :
    (Favalon_Internal_NativeMethods_stat p1 pMode1 rs1 w1).1 = (Favalon_Internal_NativeMethods_stat p2 pMode2 rs2 w2).1 ∧
    (Favalon_Internal_NativeMethods_stat p1 pMode1 rs1 w1).1 = -1 ∧
    (Favalon_Internal_NativeMethods_stat p1 pMode1 rs1 w1).1 ≠ 0 := by
  have a1 : (Favalon_Internal_NativeMethods_stat p1 pMode1 rs1 w1).1 = -1 := by
    simp [Favalon_Internal_NativeMethods_stat, stat_of_error p1 w1.fs rs1 e1 h1, toInt32_neg_one]
  have a2 : (Favalon_Internal_NativeMethods_stat p2 pMode2 rs2 w2).1 = -1 := by
    simp [Favalon_Internal_NativeMethods_stat, stat_of_error p2 w2.fs rs2 e2 h2, toInt32_neg_one]
  refine ⟨by rw [a1, a2], a1, ?_⟩
  rw [a1]
  decide

theorem stat_failure_generic_witness :
    lookup "/nonexistent" sampleWorld.fs = Except.error Errno.ENOENT ∧
    lookup "/root/secret" sampleWorld.fs = Except.error Errno.EACCES ∧
    (Favalon_Internal_NativeMethods_stat "/nonexistent" 3 ⟨99⟩ sampleWorld).1 = (Favalon_Internal_NativeMethods_stat "/root/secret" 5 ⟨0⟩ sampleWorld).1 ∧
    (Favalon_Internal_NativeMethods_stat "/nonexistent" 3 ⟨99⟩ sampleWorld).1 = -1 ∧
    (Favalon_Internal_NativeMethods_stat "/nonexistent" 3 ⟨99⟩ sampleWorld).1 ≠ 0 :=
  ⟨rfl, rfl,
   stat_failure_generic "/nonexistent" "/root/secret" 3 5 ⟨99⟩ ⟨0⟩ sampleWorld sampleWorld
     Errno.ENOENT Errno.EACCES rfl rfl⟩

/-- C8: for the empty-string path and every filesystem state the bridge
returns: the call has a result code and a resulting world, and the result
code is non-zero. -/
theorem stat_empty_path (pMode : Nat) (rs : StructStat) (w : World) :
    ∃ (result : Int) (w1 : World),
      Favalon_Internal_NativeMethods_stat "" pMode rs w = (result, w1) ∧ result ≠ 0 := by
  have hl : lookup "" w.fs = Except.error Errno.ENOENT := by simp [lookup]
  refine ⟨(Favalon_Internal_NativeMethods_stat "" pMode rs w).1, (Favalon_Internal_NativeMethods_stat "" pMode rs w).2, rfl, ?_⟩
  have a1 : (Favalon_Internal_NativeMethods_stat "" pMode rs w).1 = -1 := by
    simp [Favalon_Internal_NativeMethods_stat, stat_of_error "" w.fs rs _ hl, toInt32_neg_one]
  rw [a1]
  decide

/-- C9: the conversion of the mode field to the `int32_t` output loses no
information on 32-bit mode values.  Let `m1` and `m2` be the mode fields of
the status record after the status primitive ran in two calls, both below
`2^32`.  Reinterpreting the mode returned by the first call as an unsigned
32-bit integer gives back `m1`; if `m1` and `m2` differ then so do the
returned modes; and if `m1 < 2^31` the returned mode equals `m1` and is
non-negative. -/
theorem stat_mode_conversion_lossless (p1 p2 : String) (pMode1 pMode2 : Nat)
    (rs1 rs2 : StructStat) (w1 w2 : World) (m1 m2 : Nat)
    (h1 : (stat p1 w1.fs rs1).2.st_mode = m1) (h2 : (stat p2 w2.fs rs2).2.st_mode = m2)
    (b1 : m1 < 2 ^ 32) (b2 : m2 < 2 ^ 32) :
    toUInt32 ((Favalon_Internal_NativeMethods_stat p1 pMode1 rs1 w1).2.mem pMode1) = m1 ∧
    (m1 ≠ m2 →
      (Favalon_Internal_NativeMethods_stat p1 pMode1 rs1 w1).2.mem pMode1 ≠ (Favalon_Internal_NativeMethods_stat p2 pMode2 rs2 w2).2.mem pMode2) ∧
    (m1 < 2 ^ 31 →
      (Favalon_Internal_NativeMethods_stat p1 pMode1 rs1 w1).2.mem pMode1 = (m1 : Int) ∧
      0 ≤ (Favalon_Internal_NativeMethods_stat p1 pMode1 rs1 w1).2.mem pMode1) := by
  have v1 : (Favalon_Internal_NativeMethods_stat p1 pMode1 rs1 w1).2.mem pMode1 = toInt32 (m1 : Int) := by
    simp [Favalon_Internal_NativeMethods_stat, store, h1]
  have v2 : (Favalon_Internal_NativeMethods_stat p2 pMode2 rs2 w2).2.mem pMode2 = toInt32 (m2 : Int) := by
    simp [Favalon_Internal_NativeMethods_stat, store, h2]
  rw [v1, v2]
  refine ⟨toUInt32_toInt32 m1 b1, ?_, ?_⟩
  · intro hne heq
    apply hne
    rw [← toUInt32_toInt32 m1 b1, ← toUInt32_toInt32 m2 b2, heq]
  · intro hlt
    rw [toInt32_of_lt m1 hlt]
    exact ⟨rfl, Int.ofNat_nonneg m1⟩

theorem stat_mode_conversion_lossless_witness :
    (stat "/tmp" sampleWorld.fs ⟨99⟩).2.st_mode = 0o040755 ∧
    (stat "/nonexistent" sampleWorld.fs ⟨4294967295⟩).2.st_mode = 4294967295 ∧
    (0o040755 : Nat) < 2 ^ 32 ∧ (4294967295 : Nat) < 2 ^ 32 ∧
    (0o040755 : Nat) ≠ 4294967295 ∧ (0o040755 : Nat) < 2 ^ 31 ∧
    toUInt32 ((Favalon_Internal_NativeMethods_stat "/tmp" 3 ⟨99⟩ sampleWorld).2.mem 3) = 0o040755 ∧
    (Favalon_Internal_NativeMethods_stat "/tmp" 3 ⟨99⟩ sampleWorld).2.mem 3 ≠
      (Favalon_Internal_NativeMethods_stat "/nonexistent" 5 ⟨4294967295⟩ sampleWorld).2.mem 5 ∧
    (Favalon_Internal_NativeMethods_stat "/tmp" 3 ⟨99⟩ sampleWorld).2.mem 3 = ((0o040755 : Nat) : Int) ∧
    0 ≤ (Favalon_Internal_NativeMethods_stat "/tmp" 3 ⟨99⟩ sampleWorld).2.mem 3 :=
  ⟨rfl, rfl, by decide, by decide, by decide, by decide,
   (stat_mode_conversion_lossless "/tmp" "/nonexistent" 3 5 ⟨99⟩ ⟨4294967295⟩
     sampleWorld sampleWorld 0o040755 4294967295 rfl rfl (by decide) (by decide)).1,
   (stat_mode_conversion_lossless "/tmp" "/nonexistent" 3 5 ⟨99⟩ ⟨4294967295⟩
     sampleWorld sampleWorld 0o040755 4294967295 rfl rfl (by decide) (by decide)).2.1
     (by decide),
   (stat_mode_conversion_lossless "/tmp" "/nonexistent" 3 5 ⟨99⟩ ⟨4294967295⟩
     sampleWorld sampleWorld 0o040755 4294967295 rfl rfl (by decide) (by decide)).2.2
     (by decide)⟩

/-- C10: the mode output slot is overwritten on every call, independently of
the result code.  After the call the slot holds the 32-bit signed conversion
of the mode field of the status record as it stands after the status
primitive ran: the reported mode when the lookup succeeds, the mode field of
the prior content of the record when it fails.  The value does not depend on
what the caller's memory, the slot included, and `errno` held before the
call. -/
theorem stat_mode_always_written (pPath : String) (pMode : Nat) (rs : StructStat)
    (w : World) :
    (Favalon_Internal_NativeMethods_stat pPath pMode rs w).2.mem pMode = toInt32 ((stat pPath w.fs rs).2.st_mode : Int) ∧
    (∀ st, lookup pPath w.fs = Except.ok st →
      (Favalon_Internal_NativeMethods_stat pPath pMode rs w).2.mem pMode = toInt32 (st.st_mode : Int)) ∧
    (∀ e, lookup pPath w.fs = Except.error e →
      (Favalon_Internal_NativeMethods_stat pPath pMode rs w).2.mem pMode = toInt32 (rs.st_mode : Int)) ∧
    (∀ (mem1 : Nat → Int) (errno1 : Option Errno),
      (Favalon_Internal_NativeMethods_stat pPath pMode rs ⟨w.fs, mem1, errno1⟩).2.mem pMode =
        (Favalon_Internal_NativeMethods_stat pPath pMode rs w).2.mem pMode) := by
  have hv : ∀ (mem1 : Nat → Int) (errno1 : Option Errno),
      (Favalon_Internal_NativeMethods_stat pPath pMode rs ⟨w.fs, mem1, errno1⟩).2.mem pMode
      = toInt32 ((stat pPath w.fs rs).2.st_mode : Int) := by
    intro mem1 errno1
    simp [Favalon_Internal_NativeMethods_stat, store]
  have h0 : (Favalon_Internal_NativeMethods_stat pPath pMode rs w).2.mem pMode
      = toInt32 ((stat pPath w.fs rs).2.st_mode : Int) := hv w.mem w.errno
  refine ⟨h0, ?_, ?_, ?_⟩
  · intro st h
    rw [h0, stat_of_ok pPath w.fs rs st h]
  · intro e h
    rw [h0, stat_of_error pPath w.fs rs e h]
  · intro mem1 errno1
    rw [hv mem1 errno1, h0]

theorem stat_mode_always_written_witness :
    lookup "/root/secret" sampleWorld.fs = Except.error Errno.EACCES ∧
    (Favalon_Internal_NativeMethods_stat "/root/secret" 3 ⟨99⟩ sampleWorld).2.mem 3
      = toInt32 ((⟨99⟩ : StructStat).st_mode : Int) :=
  ⟨rfl, (stat_mode_always_written "/root/secret" 3 ⟨99⟩ sampleWorld).2.2.1 Errno.EACCES rfl⟩

end Favalon
